import Mathlib

/-!
Verification of the per-session transaction participant
(`src/mongo/db/transaction_participant.cpp`).

The C++ source is shallowly embedded: the participant's fields guarded by its
mutex become a Lean structure, each public entry point becomes a function from
the pre-state (participant, session view, operation context) to a result
carrying the post-state, the emitted observer/metrics events and an outcome.
`uassert` failures are modelled as `Outcome.error code` (the mutations already
performed are kept, as a thrown exception does not roll back fields guarded by
the mutex), and `invariant` failures / `std::terminate` as `Outcome.fatal`.
-/

namespace MongoTxn

/-- Error codes surfaced by the participant (`ErrorCodes::...` in the source).
`code50911` is the numbered uassert in `beginOrContinue`. -/
inductive ErrorCode where
  | NoSuchTransaction
  | TransactionCommitted
  | TransactionTooLarge
  | PreparedTransactionInProgress
  | ConflictingOperationInProgress
  | InvalidOptions
  | OperationNotSupportedInTransaction
  | ExceededTimeLimit
  | BadValue
  | code50911
deriving DecidableEq, Repr

/-- How a modelled call ends: normal return, a `uassert`/`uasserted` throw with
its error code, or a fatal `invariant` failure / `std::terminate`. -/
inductive Outcome where
  | ok
  | error (code : ErrorCode)
  | fatal
deriving DecidableEq, Repr

/-- Observable events: metrics-observer callbacks, txn-number lock bookkeeping
on the session, and the kill issued by the expiry sweeper. -/
inductive Event where
  | onStart
  | onStash
  | onUnstash
  | onPrepare
  | onCommit
  | onAbortActive
  | onAbortInactive
  | onTransactionOperation
  | onChooseReadTimestamp
  | resetSingleTransactionStats (txnNumber : Int)
  | unlockTxnNumber
  | lockTxnNumber
  | killOperation (code : ErrorCode)
deriving DecidableEq, Repr

/-- `repl::OpTime`: a `Timestamp` (modelled as `Nat`, `0` = null) and a term.
`OpTime()` default-constructs with an uninitialized (`-1`) term. -/
structure OpTime where
  ts : Nat
  term : Int
deriving DecidableEq, Repr

/-- The default-constructed (null) `repl::OpTime()`. -/
def OpTime.null : OpTime := { ts := 0, term := -1 }

/-- `repl::ReadConcernArgs`; only emptiness is relevant to the participant. -/
structure ReadConcernArgs where
  level : Option Nat
deriving DecidableEq, Repr

/-- `ReadConcernArgs::isEmpty`. -/
def ReadConcernArgs.isEmpty (rc : ReadConcernArgs) : Bool := rc.level = none

/-- `repl::ReplOperation`, abstracted to its in-memory serialized size, which
is all `addTransactionOperation` reads from it. -/
structure ReplOperation where
  size : Nat
deriving DecidableEq, Repr

/-- `repl::OplogEntry::getReplOperationSize`. -/
def getReplOperationSize (op : ReplOperation) : Nat := op.size

/-- Modelled from the spec: `MAX_BSON_INTERNAL_SIZE` (`BSONObjMaxInternalSize`)
is declared in a header outside this repository snapshot; the spec names it as
the bound on `operation_bytes` (16MB user limit plus internal overhead). The
claims about it depend only on comparisons against this constant, not on its
exact value. -/
def BSONObjMaxInternalSize : Nat := 16 * 1024 * 1024 + 16 * 1024

/-- `kUninitializedTxnNumber`: declared outside this file; the session starts
with an uninitialized (negative) transaction number. -/
def kUninitializedTxnNumber : Int := -1

/-- Server parameter `maxTransactionLockRequestTimeoutMillis` (default 5). -/
def maxTransactionLockRequestTimeoutMillis : Int := 5

/-- `TransactionState::StateFlag`. -/
inductive TransactionState where
  | kNone
  | kInProgress
  | kPrepared
  | kCommittingWithoutPrepare
  | kCommittingWithPrepare
  | kCommitted
  | kAborted
deriving DecidableEq, Repr

/-- `TransactionState::TransitionValidation`. -/
inductive TransitionValidation where
  | kValidateTransition
  | kRelaxTransitionValidation
deriving DecidableEq, Repr

/-- `TransactionState::_isLegalTransition`, switch for switch. -/
def TransactionState.isLegalTransition
    (oldState newState : TransactionState) : Bool :=
  match oldState with
  | .kNone =>
    match newState with
    | .kNone | .kInProgress => true
    | _ => false
  | .kInProgress =>
    match newState with
    | .kNone | .kPrepared | .kCommittingWithoutPrepare | .kAborted => true
    | _ => false
  | .kPrepared =>
    match newState with
    | .kCommittingWithPrepare | .kAborted => true
    | _ => false
  | .kCommittingWithPrepare | .kCommittingWithoutPrepare =>
    match newState with
    | .kNone | .kCommitted | .kAborted => true
    | _ => false
  | .kCommitted =>
    match newState with
    | .kNone | .kInProgress => true
    | _ => false
  | .kAborted =>
    match newState with
    | .kNone | .kInProgress => true
    | _ => false

/-- `TransactionState::transitionTo`: in `kValidateTransition` mode an illegal
transition trips `invariant` (modelled as `none` = fatal); in relax mode the
new state is installed unconditionally. -/
def TransactionState.transitionTo (s newState : TransactionState)
    (shouldValidate : TransitionValidation) : Option TransactionState :=
  match shouldValidate with
  | .kValidateTransition =>
    if TransactionState.isLegalTransition s newState then some newState else none
  | .kRelaxTransitionValidation => some newState

/-- `transitionTo` at its default argument (`kValidateTransition`). -/
def transitionToValidated (s newState : TransactionState) : Option TransactionState :=
  TransactionState.transitionTo s newState TransitionValidation.kValidateTransition

/-- The transition table exactly as the specification (§4.1) writes it; kept
separate from `TransactionState.isLegalTransition` (which is translated from
the code) so the two can be compared. -/
def specTransitionTable : List (TransactionState × TransactionState) :=
  [(.kNone, .kNone), (.kNone, .kInProgress),
   (.kInProgress, .kNone), (.kInProgress, .kPrepared),
   (.kInProgress, .kCommittingWithoutPrepare), (.kInProgress, .kAborted),
   (.kPrepared, .kCommittingWithPrepare), (.kPrepared, .kAborted),
   (.kCommittingWithoutPrepare, .kNone), (.kCommittingWithoutPrepare, .kCommitted),
   (.kCommittingWithoutPrepare, .kAborted),
   (.kCommittingWithPrepare, .kNone), (.kCommittingWithPrepare, .kCommitted),
   (.kCommittingWithPrepare, .kAborted),
   (.kCommitted, .kNone), (.kCommitted, .kInProgress),
   (.kAborted, .kNone), (.kAborted, .kInProgress)]

/-- `txnCmdWhitelist`: command names allowed in a multi-document transaction. -/
def txnCmdWhitelist : List String :=
  ["abortTransaction", "aggregate", "commitTransaction",
   "coordinateCommitTransaction", "delete", "distinct", "doTxn", "find",
   "findandmodify", "findAndModify", "geoSearch", "getMore", "insert",
   "killCursors", "prepareTransaction", "update", "voteAbortTransaction",
   "voteCommitTransaction"]

/-- `txnCmdForTestingWhitelist`: additionally allowed when test commands are
enabled. -/
def txnCmdForTestingWhitelist : List String := ["dbHash"]

/-- `txnAdminCommands`: commands runnable on the `admin` database inside a
multi-document transaction. -/
def txnAdminCommands : List String :=
  ["abortTransaction", "commitTransaction", "coordinateCommitTransaction",
   "doTxn", "prepareTransaction", "voteAbortTransaction",
   "voteCommitTransaction"]

/-- `preparedTxnCmdWhitelist`: commands allowed on a prepared transaction. -/
def preparedTxnCmdWhitelist : List String :=
  ["abortTransaction", "commitTransaction", "prepareTransaction"]

/-- `Status`: OK or a typed error code with a message. -/
inductive Status where
  | ok
  | error (code : ErrorCode) (msg : String)
deriving DecidableEq, Repr

/-- The dochub link offered as the alternative when `count` is rejected. -/
def transactionCountHint : String :=
  "http://dochub.mongodb.org/core/transaction-count"

/-- The full rejection message for `count`, containing the hint link. -/
def countRejectMessage : String :=
  "Cannot run 'count' in a multi-document transaction. Please see " ++
    transactionCountHint ++ " for a recommended alternative."

/-- `TransactionParticipant::isValid(dbName, cmdName)`; the source reads the
process-global `getTestCommandsEnabled()`, passed here as an argument. -/
def isValid (dbName cmdName : String) (testCommandsEnabled : Bool) : Status :=
  if cmdName = "count" then
    Status.error ErrorCode.OperationNotSupportedInTransaction countRejectMessage
  else if ¬ cmdName ∈ txnCmdWhitelist ∧
      ¬ (testCommandsEnabled = true ∧ cmdName ∈ txnCmdForTestingWhitelist) then
    Status.error ErrorCode.OperationNotSupportedInTransaction
      ("Cannot run '" ++ cmdName ++ "' in a multi-document transaction.")
  else if dbName = "config" ∨ dbName = "local" ∨
      (dbName = "admin" ∧ ¬ cmdName ∈ txnAdminCommands) then
    Status.error ErrorCode.OperationNotSupportedInTransaction
      ("Cannot run command against the '" ++ dbName ++
        "' database in a transaction")
  else Status.ok

/-- The participant's view of its owning `Session`: the externally-managed
active transaction number, the last refresh state (for `_updateState`), and
whether an operation is currently running on the session. -/
structure RefreshState where
  refreshCount : Nat
  txnNumber : Int
  isCommitted : Bool
deriving DecidableEq, Repr

structure SessionState where
  activeTxnNumber : Int
  lastRefreshState : Option RefreshState
  hasCurrentOperation : Bool
deriving DecidableEq, Repr

/-- The `OperationContext` as the participant touches it: the request's
transaction number, whether the client is a direct (internal) client, the
write unit of work (its resume-state token; `none` = no WUOW), the locker,
its max lock timeout, the recovery unit, and the bound read concern.
The locker's `inAWriteUnitOfWork` flag is modelled by `wuow.isSome`. -/
structure OpCtx where
  txnNumber : Option Int
  isInDirectClient : Bool
  wuow : Option Nat
  lockState : Nat
  maxLockTimeout : Option Int
  recoveryUnit : Nat
  readConcern : ReadConcernArgs
deriving DecidableEq, Repr

/-- A freshly constructed empty `LockerImpl` (identity immaterial). -/
def freshLocker : Nat := 0

/-- A fresh non-transactional recovery unit from the storage engine. -/
def freshRecoveryUnit : Nat := 0

/-- The resume state of a brand-new `WriteUnitOfWork`. -/
def freshWuowState : Nat := 0

/-- Applying `maxTransactionLockRequestTimeoutMillis` to a locker: set only
when the parameter is non-negative. -/
def applyMaxLockTimeout (t : Option Int) : Option Int :=
  if 0 ≤ maxTransactionLockRequestTimeoutMillis then
    some maxTransactionLockRequestTimeoutMillis
  else t

/-- `TransactionParticipant::TxnResources`: custody of the WUOW resume state,
the locker, the recovery unit and the read concern, moved between op-context
and stash. The scheduling-ticket handling (`keepTicket`) has no observable
effect on the modelled fields. -/
structure TxnResources where
  ruState : Nat
  locker : Nat
  recoveryUnit : Nat
  readConcernArgs : ReadConcernArgs
  released : Bool
deriving DecidableEq, Repr

/-- The `TxnResources` constructor: detach the op-context's WUOW (dereferenced
unconditionally in the source, so a missing WUOW is fatal — `none`), swap in a
fresh locker with the transaction lock timeout applied, detach the recovery
unit installing a fresh one, and capture the read concern. -/
def TxnResources.acquire (opCtx : OpCtx) (_keepTicket : Bool) :
    Option (TxnResources × OpCtx) :=
  match opCtx.wuow with
  | none => none
  | some ru =>
    some ({ ruState := ru, locker := opCtx.lockState,
            recoveryUnit := opCtx.recoveryUnit,
            readConcernArgs := opCtx.readConcern, released := false },
          { opCtx with
            wuow := none,
            lockState := freshLocker,
            maxLockTimeout := applyMaxLockTimeout opCtx.maxLockTimeout,
            recoveryUnit := freshRecoveryUnit })

/-- `TxnResources::release`: hand the retained resources back to the
op-context. `invariant(!_released)` and
`invariant(oldState == kNotInUnitOfWork)` (the op-context must not already
hold a WUOW) are fatal, modelled as `none`. -/
def TxnResources.release (tr : TxnResources) (opCtx : OpCtx) :
    Option (TxnResources × OpCtx) :=
  if tr.released then none
  else match opCtx.wuow with
    | some _ => none
    | none =>
      some ({ tr with released := true },
            { opCtx with
              lockState := tr.locker,
              recoveryUnit := tr.recoveryUnit,
              wuow := some tr.ruState,
              readConcern := tr.readConcernArgs })

/-- The mutex-guarded fields of `TransactionParticipant`. -/
structure TransactionParticipant where
  activeTxnNumber : Int
  txnState : TransactionState
  autoCommit : Option Bool
  txnResourceStash : Option TxnResources
  transactionOperations : List ReplOperation
  transactionOperationBytes : Nat
  prepareOpTime : OpTime
  oldestOplogEntryTS : Option Nat
  speculativeTransactionReadOpTime : OpTime
  transactionExpireDate : Option Nat
  lastStateRefreshCount : Nat
  inShutdown : Bool
deriving DecidableEq, Repr

/-- Result of an entry point that touches only the participant. -/
structure PResult where
  participant : TransactionParticipant
  events : List Event
  outcome : Outcome
deriving DecidableEq, Repr

/-- Result of an entry point that also moves resources on the op-context. -/
structure OpResult where
  participant : TransactionParticipant
  opCtx : OpCtx
  events : List Event
  outcome : Outcome
deriving DecidableEq, Repr

/-- Modelled from the spec: `TransactionState::inMultiDocumentTransaction` is
declared in the class header, which is not part of this repository snapshot.
Per §3 (stash present only for in-flight multi-document transactions) and the
source comment in `stashTransactionResources` (an `Aborted` state must make
the stash a no-op), the in-flight multi-document states are `InProgress`,
`Prepared` and the two committing states. -/
def inMultiDocumentTransaction (s : TransactionState) : Bool :=
  s = .kInProgress ∨ s = .kPrepared ∨
    s = .kCommittingWithoutPrepare ∨ s = .kCommittingWithPrepare

/-- `_checkIsActiveTransaction`: the session's number and the request's number
must both equal the participant's active number; with `checkAbort` the state
must not be `Aborted`. -/
def checkIsActiveTransaction (sess : SessionState)
    (p : TransactionParticipant) (requestTxnNumber : Int)
    (checkAbort : Bool) : Option ErrorCode :=
  if ¬ sess.activeTxnNumber = p.activeTxnNumber then
    some ErrorCode.ConflictingOperationInProgress
  else if ¬ requestTxnNumber = p.activeTxnNumber then
    some ErrorCode.ConflictingOperationInProgress
  else if checkAbort = true ∧ p.txnState = .kAborted then
    some ErrorCode.NoSuchTransaction
  else none

/-- `_checkIsCommandValidWithTxnState`. -/
def checkIsCommandValidWithTxnState (state : TransactionState)
    (cmdName : String) : Option ErrorCode :=
  if state = .kAborted then some ErrorCode.NoSuchTransaction
  else if state = .kCommitted ∧ ¬ cmdName = "commitTransaction" then
    some ErrorCode.TransactionCommitted
  else if state = .kPrepared ∧ ¬ cmdName ∈ preparedTxnCmdWhitelist then
    some ErrorCode.PreparedTransactionInProgress
  else none

namespace TransactionParticipant

/-- `_abortTransactionOnSession`: emit inactive/active abort metrics (and drop
the stash), clear the buffered operations and their byte count, transition to
`Aborted` (validated), reset the per-transaction optimes, and unlock the
session's transaction number. -/
def abortTransactionOnSession (p : TransactionParticipant) : PResult :=
  let evs := match p.txnResourceStash with
    | some _ => [Event.onAbortInactive]
    | none => [Event.onAbortActive]
  let p1 := { p with txnResourceStash := none,
                     transactionOperationBytes := 0,
                     transactionOperations := [] }
  match transitionToValidated p1.txnState .kAborted with
  | none => { participant := p1, events := evs, outcome := Outcome.fatal }
  | some s =>
    { participant := { p1 with
        txnState := s,
        prepareOpTime := OpTime.null,
        oldestOplogEntryTS := none,
        speculativeTransactionReadOpTime := OpTime.null },
      events := evs ++ [Event.unlockTxnNumber],
      outcome := Outcome.ok }

/-- `_setNewTxnNumber`: fatal if prepared or committing-with-prepare; abort an
in-progress transaction; install the new number; transition to `None`; reset
the per-transaction fields and single-transaction stats. -/
def setNewTxnNumber (p : TransactionParticipant) (txnNumber : Int) : PResult :=
  if p.txnState = .kPrepared ∨ p.txnState = .kCommittingWithPrepare then
    { participant := p, events := [], outcome := Outcome.fatal }
  else
    let r := if p.txnState = .kInProgress then abortTransactionOnSession p
             else { participant := p, events := [], outcome := Outcome.ok }
    match r.outcome with
    | Outcome.ok =>
      let p1 := { r.participant with activeTxnNumber := txnNumber }
      match transitionToValidated p1.txnState .kNone with
      | none => { participant := p1, events := r.events, outcome := Outcome.fatal }
      | some s =>
        { participant := { p1 with
            txnState := s,
            prepareOpTime := OpTime.null,
            oldestOplogEntryTS := none,
            speculativeTransactionReadOpTime := OpTime.null,
            autoCommit := none },
          events := r.events ++ [Event.resetSingleTransactionStats txnNumber],
          outcome := Outcome.ok }
    | _ => r

/-- `_updateState`: skip stale refreshes; otherwise adopt the refreshed
transaction number and, when the refresh says committed, move to `Committed`
under relaxed validation. -/
def updateState (p : TransactionParticipant) (rs : RefreshState) :
    TransactionParticipant :=
  if rs.refreshCount ≤ p.lastStateRefreshCount then p
  else
    let p1 := { p with activeTxnNumber := rs.txnNumber }
    let p2 := if rs.isCommitted then
        match TransactionState.transitionTo p1.txnState .kCommitted
            TransitionValidation.kRelaxTransitionValidation with
        | some s => { p1 with txnState := s }
        | none => p1
      else p1
    { p2 with lastStateRefreshCount := rs.refreshCount }

/-- `_beginOrContinueRetryableWrite`. -/
def beginOrContinueRetryableWrite (p : TransactionParticipant)
    (txnNumber : Int) : PResult :=
  if txnNumber > p.activeTxnNumber then
    setNewTxnNumber p txnNumber
  else if ¬ p.txnState = .kNone then
    { participant := p, events := [], outcome := Outcome.error ErrorCode.InvalidOptions }
  else if ¬ p.autoCommit = none then
    { participant := p, events := [], outcome := Outcome.fatal }
  else { participant := p, events := [], outcome := Outcome.ok }

/-- `_continueMultiDocumentTransaction`: reject a number that does not match
an in-progress transaction; when the state is `InProgress` with no stash (the
first statement failed without aborting) abort the transaction on the session
and then fail with `NoSuchTransaction`. -/
def continueMultiDocumentTransaction (p : TransactionParticipant)
    (txnNumber : Int) : PResult :=
  if ¬ (txnNumber = p.activeTxnNumber ∧ ¬ p.txnState = .kNone) then
    { participant := p, events := [],
      outcome := Outcome.error ErrorCode.NoSuchTransaction }
  else if p.txnState = .kInProgress ∧ p.txnResourceStash = none then
    let r := abortTransactionOnSession p
    match r.outcome with
    | Outcome.ok =>
      { participant := r.participant, events := r.events,
        outcome := Outcome.error ErrorCode.NoSuchTransaction }
    | _ => r
  else { participant := p, events := [], outcome := Outcome.ok }

/-- `_beginMultiDocumentTransaction`: set the new number (aborting any
in-progress transaction), record `autocommit=false`, transition to
`InProgress`, set the expiry deadline, emit `onStart`, and check
`invariant(_transactionOperations.empty())`. -/
def beginMultiDocumentTransaction (p : TransactionParticipant)
    (txnNumber : Int) (now lifetimeSeconds : Nat) : PResult :=
  let r := setNewTxnNumber p txnNumber
  match r.outcome with
  | Outcome.ok =>
    let p1 := { r.participant with autoCommit := some false }
    match transitionToValidated p1.txnState .kInProgress with
    | none => { participant := p1, events := r.events, outcome := Outcome.fatal }
    | some s =>
      let p2 := { p1 with
        txnState := s,
        transactionExpireDate := some (now + lifetimeSeconds) }
      if p2.transactionOperations = [] then
        { participant := p2, events := r.events ++ [Event.onStart],
          outcome := Outcome.ok }
      else
        { participant := p2, events := r.events ++ [Event.onStart],
          outcome := Outcome.fatal }
  | _ => r

/-- The body of `beginOrContinue` after the refresh step: the dispatch on
`(autocommit, startTransaction)` exactly as the source writes it. The
deployment's cluster role and the clock are passed as arguments. -/
def beginOrContinueDispatch (p : TransactionParticipant)
    (txnNumber : Int) (autocommit startTransaction : Option Bool)
    (clusterRoleIsNone : Bool) (now lifetimeSeconds : Nat) : PResult :=
  match autocommit with
  | none =>
    if ¬ startTransaction = none then
      { participant := p, events := [], outcome := Outcome.fatal }
    else beginOrContinueRetryableWrite p txnNumber
  | some true => { participant := p, events := [], outcome := Outcome.fatal }
  | some false =>
    match startTransaction with
    | none => continueMultiDocumentTransaction p txnNumber
    | some false => { participant := p, events := [], outcome := Outcome.fatal }
    | some true =>
      if txnNumber = p.activeTxnNumber then
        if clusterRoleIsNone then
          { participant := p, events := [],
            outcome := Outcome.error ErrorCode.ConflictingOperationInProgress }
        else if ¬ (p.txnState = .kInProgress ∨ p.txnState = .kAborted) then
          { participant := p, events := [],
            outcome := Outcome.error ErrorCode.code50911 }
        else beginMultiDocumentTransaction p txnNumber now lifetimeSeconds
      else beginMultiDocumentTransaction p txnNumber now lifetimeSeconds

/-- `beginOrContinue`: refresh from the session if newer state is available,
then dispatch on `(autocommit, startTransaction)`. -/
def beginOrContinue (sess : SessionState) (p : TransactionParticipant)
    (txnNumber : Int) (autocommit startTransaction : Option Bool)
    (clusterRoleIsNone : Bool) (now lifetimeSeconds : Nat) : PResult :=
  let p1 := match sess.lastRefreshState with
    | some rs => updateState p rs
    | none => p
  beginOrContinueDispatch p1 txnNumber autocommit startTransaction
    clusterRoleIsNone now lifetimeSeconds

/-- `beginTransactionUnconditionally`. -/
def beginTransactionUnconditionally (p : TransactionParticipant)
    (txnNumber : Int) (now lifetimeSeconds : Nat) : PResult :=
  beginMultiDocumentTransaction p txnNumber now lifetimeSeconds

/-- `checkForNewTxnNumber`. -/
def checkForNewTxnNumber (sess : SessionState)
    (p : TransactionParticipant) : PResult :=
  if sess.activeTxnNumber > p.activeTxnNumber then
    setNewTxnNumber p sess.activeTxnNumber
  else { participant := p, events := [], outcome := Outcome.ok }

/-- `_stashActiveTransaction`: a no-op during shutdown; otherwise check the
invariants, record stash metrics, and take custody of the op-context's
resources into a fresh stash. -/
def stashActiveTransaction (p : TransactionParticipant) (opCtx : OpCtx) :
    OpResult :=
  if p.inShutdown then
    { participant := p, opCtx := opCtx, events := [], outcome := Outcome.ok }
  else if ¬ some p.activeTxnNumber = opCtx.txnNumber then
    { participant := p, opCtx := opCtx, events := [], outcome := Outcome.fatal }
  else
    let evs := [Event.onStash, Event.onTransactionOperation]
    if ¬ p.txnResourceStash = none then
      { participant := p, opCtx := opCtx, events := evs, outcome := Outcome.fatal }
    else match TxnResources.acquire opCtx false with
      | none =>
        { participant := p, opCtx := opCtx, events := evs, outcome := Outcome.fatal }
      | some (tr, opCtx1) =>
        { participant := { p with txnResourceStash := some tr },
          opCtx := opCtx1, events := evs, outcome := Outcome.ok }

/-- `stashTransactionResources`. -/
def stashTransactionResources (sess : SessionState)
    (p : TransactionParticipant) (opCtx : OpCtx) : OpResult :=
  if opCtx.isInDirectClient then
    { participant := p, opCtx := opCtx, events := [], outcome := Outcome.ok }
  else match opCtx.txnNumber with
    | none =>
      { participant := p, opCtx := opCtx, events := [], outcome := Outcome.fatal }
    | some n =>
      match checkIsActiveTransaction sess p n false with
      | some c =>
        { participant := p, opCtx := opCtx, events := [],
          outcome := Outcome.error c }
      | none =>
        if ¬ inMultiDocumentTransaction p.txnState then
          { participant := p, opCtx := opCtx, events := [], outcome := Outcome.ok }
        else stashActiveTransaction p opCtx

/-- `unstashTransactionResources`. The trailing global-lock acquisition and
snapshot preallocation have no effect on the modelled state. -/
def unstashTransactionResources (sess : SessionState)
    (p : TransactionParticipant) (opCtx : OpCtx) (cmdName : String) :
    OpResult :=
  if opCtx.isInDirectClient then
    { participant := p, opCtx := opCtx, events := [], outcome := Outcome.ok }
  else match opCtx.txnNumber with
    | none =>
      { participant := p, opCtx := opCtx, events := [], outcome := Outcome.fatal }
    | some n =>
      match checkIsActiveTransaction sess p n false with
      | some c =>
        { participant := p, opCtx := opCtx, events := [],
          outcome := Outcome.error c }
      | none =>
        if p.txnState = .kNone then
          if ¬ p.txnResourceStash = none then
            { participant := p, opCtx := opCtx, events := [],
              outcome := Outcome.fatal }
          else
            { participant := p, opCtx := opCtx, events := [],
              outcome := Outcome.ok }
        else match checkIsCommandValidWithTxnState p.txnState cmdName with
          | some c =>
            { participant := p, opCtx := opCtx, events := [],
              outcome := Outcome.error c }
          | none =>
            match p.txnResourceStash with
            | some tr =>
              if ¬ opCtx.readConcern.isEmpty then
                { participant := p, opCtx := opCtx, events := [],
                  outcome := Outcome.error ErrorCode.InvalidOptions }
              else match tr.release opCtx with
                | none =>
                  { participant := p, opCtx := opCtx, events := [],
                    outcome := Outcome.fatal }
                | some (_, opCtx1) =>
                  { participant := { p with txnResourceStash := none },
                    opCtx := opCtx1, events := [Event.onUnstash],
                    outcome := Outcome.ok }
            | none =>
              if p.txnState = .kPrepared then
                { participant := p, opCtx := opCtx, events := [],
                  outcome := Outcome.fatal }
              else if ¬ p.txnState = .kInProgress then
                { participant := p, opCtx := opCtx, events := [],
                  outcome := Outcome.ok }
              else
                { participant := p,
                  opCtx := { opCtx with
                    wuow := some freshWuowState,
                    maxLockTimeout := applyMaxLockTimeout opCtx.maxLockTimeout },
                  events := [Event.onUnstash], outcome := Outcome.ok }

/-- `addTransactionOperation`: after the active-transaction and state
invariants, the operation is appended and its size added before the
`TransactionTooLarge` bound is checked. -/
def addTransactionOperation (sess : SessionState)
    (p : TransactionParticipant) (opCtx : OpCtx) (op : ReplOperation) :
    PResult :=
  match opCtx.txnNumber with
  | none => { participant := p, events := [], outcome := Outcome.fatal }
  | some n =>
    match checkIsActiveTransaction sess p n true with
    | some c =>
      { participant := p, events := [], outcome := Outcome.error c }
    | none =>
      if ¬ p.txnState = .kInProgress then
        { participant := p, events := [], outcome := Outcome.fatal }
      else if ¬ (p.autoCommit = some false ∧
          ¬ p.activeTxnNumber = kUninitializedTxnNumber) then
        { participant := p, events := [], outcome := Outcome.fatal }
      else if ¬ opCtx.wuow.isSome then
        { participant := p, events := [], outcome := Outcome.fatal }
      else
        let p1 := { p with
          transactionOperations := p.transactionOperations ++ [op],
          transactionOperationBytes :=
            p.transactionOperationBytes + getReplOperationSize op }
        if p1.transactionOperationBytes ≤ BSONObjMaxInternalSize then
          { participant := p1, events := [], outcome := Outcome.ok }
        else
          { participant := p1, events := [],
            outcome := Outcome.error ErrorCode.TransactionTooLarge }

/-- The validation prefix of `commitPreparedTransaction` (source lines
699-714): the active-transaction check, the three `InvalidOptions` guards,
and the transition to `CommittingWithPrepare`. The remainder of the function
is the fatal-on-failure commit region (oplog slot, storage commit, observer),
which no claim examines. -/
def commitPreparedTransactionValidate (sess : SessionState)
    (p : TransactionParticipant) (opCtx : OpCtx) (commitTimestamp : Nat) :
    PResult :=
  match opCtx.txnNumber with
  | none => { participant := p, events := [], outcome := Outcome.fatal }
  | some n =>
    match checkIsActiveTransaction sess p n true with
    | some c => { participant := p, events := [], outcome := Outcome.error c }
    | none =>
      if ¬ p.txnState = .kPrepared then
        { participant := p, events := [],
          outcome := Outcome.error ErrorCode.InvalidOptions }
      else if commitTimestamp = 0 then
        { participant := p, events := [],
          outcome := Outcome.error ErrorCode.InvalidOptions }
      else if commitTimestamp < p.prepareOpTime.ts then
        { participant := p, events := [],
          outcome := Outcome.error ErrorCode.InvalidOptions }
      else match transitionToValidated p.txnState .kCommittingWithPrepare with
        | none => { participant := p, events := [], outcome := Outcome.fatal }
        | some s =>
          { participant := { p with txnState := s }, events := [],
            outcome := Outcome.ok }

/-- `shutdown`: set `_inShutdown` and drop the stash. -/
def shutdown (p : TransactionParticipant) : TransactionParticipant :=
  { p with inShutdown := true, txnResourceStash := none }

/-- `abortArbitraryTransaction`: only an `InProgress` transaction is aborted
by this non-user-directed path. -/
def abortArbitraryTransaction (p : TransactionParticipant) : PResult :=
  if ¬ p.txnState = .kInProgress then
    { participant := p, events := [], outcome := Outcome.ok }
  else abortTransactionOnSession p

/-- Whether `_transactionExpireDate` has passed: false when unset, and the
source returns early when `_transactionExpireDate >= Date_t::now()`. -/
def expireDatePassed (expireDate : Option Nat) (now : Nat) : Bool :=
  match expireDate with
  | none => false
  | some d => decide (d < now)

/-- `abortArbitraryTransactionIfExpired`: abort only an `InProgress`
transaction whose deadline is strictly before now, after killing the
session's running operation (if any) with `ExceededTimeLimit`. -/
def abortArbitraryTransactionIfExpired (sess : SessionState)
    (p : TransactionParticipant) (now : Nat) : PResult :=
  if ¬ p.txnState = .kInProgress then
    { participant := p, events := [], outcome := Outcome.ok }
  else if ¬ expireDatePassed p.transactionExpireDate now then
    { participant := p, events := [], outcome := Outcome.ok }
  else
    let kills := if sess.hasCurrentOperation then
        [Event.killOperation ErrorCode.ExceededTimeLimit]
      else []
    let r := abortTransactionOnSession p
    { participant := r.participant, events := kills ++ r.events,
      outcome := r.outcome }

end TransactionParticipant

end MongoTxn

namespace MongoTxn

open TransactionParticipant

/-! Concrete fixtures used by the witness theorems: a participant whose
session observed transaction number 10, in the various states the claims
exercise. -/

/-- A participant at txn number 10 in state `None` with no per-txn state. -/
def baseParticipant : TransactionParticipant :=
  { activeTxnNumber := 10, txnState := .kNone, autoCommit := none,
    txnResourceStash := none, transactionOperations := [],
    transactionOperationBytes := 0, prepareOpTime := OpTime.null,
    oldestOplogEntryTS := none,
    speculativeTransactionReadOpTime := OpTime.null,
    transactionExpireDate := none, lastStateRefreshCount := 0,
    inShutdown := false }

def baseSession : SessionState :=
  { activeTxnNumber := 10, lastRefreshState := none,
    hasCurrentOperation := false }

def baseOpCtx : OpCtx :=
  { txnNumber := some 10, isInDirectClient := false, wuow := none,
    lockState := 3, maxLockTimeout := none, recoveryUnit := 7,
    readConcern := { level := none } }

def baseResources : TxnResources :=
  { ruState := 42, locker := 9, recoveryUnit := 11,
    readConcernArgs := { level := some 1 }, released := false }

def inProgressParticipant : TransactionParticipant :=
  { baseParticipant with
    txnState := .kInProgress,
    autoCommit := some false }

def preparedParticipant : TransactionParticipant :=
  { baseParticipant with
    txnState := .kPrepared,
    autoCommit := some false,
    prepareOpTime := { ts := 3, term := 1 } }

def stashedParticipant : TransactionParticipant :=
  { baseParticipant with
    txnState := .kInProgress,
    autoCommit := some false,
    txnResourceStash := some baseResources,
    transactionOperations := [{ size := 5 }],
    transactionOperationBytes := 5 }

/-- C1: for every ordered pair of states, `TransactionState::transitionTo` in
`Validate` mode succeeds (installs the new state) exactly when the pair is in
the transition table of §4.1 of the specification, and is fatal (invariant
failure, modelled as `none`) for every other pair. -/
theorem transitionTo_validate_iff_spec_table :
    ∀ f t : TransactionState,
      (TransactionState.transitionTo f t TransitionValidation.kValidateTransition = some t ↔
        (f, t) ∈ specTransitionTable) ∧
      (TransactionState.transitionTo f t TransitionValidation.kValidateTransition = none ↔
        ¬ (f, t) ∈ specTransitionTable) := by
  intro f t
  cases f <;> cases t <;> decide

/-- C8: `isValid` returns OK exactly when the command is not `count`, is in
the transaction allow-list (or test commands are enabled and it is in the
test-only set), and the database is not `config`/`local` and is `admin` only
for the admin allow-list; every rejection is the typed error code
`OperationNotSupportedInTransaction`; `count` is rejected with the message
holding the dochub hint link. The function is total, so it never panics. -/
theorem isValid_characterization (dbName cmdName : String) (test : Bool) :
    (isValid dbName cmdName test = Status.ok ↔
      (¬ cmdName = "count" ∧
        (cmdName ∈ txnCmdWhitelist ∨
          (test = true ∧ cmdName ∈ txnCmdForTestingWhitelist)) ∧
        ¬ dbName = "config" ∧ ¬ dbName = "local" ∧
        (dbName = "admin" → cmdName ∈ txnAdminCommands))) ∧
    (∀ c m, isValid dbName cmdName test = Status.error c m →
      c = ErrorCode.OperationNotSupportedInTransaction) ∧
    (cmdName = "count" →
      isValid dbName cmdName test =
        Status.error ErrorCode.OperationNotSupportedInTransaction countRejectMessage) ∧
    (∃ pre post, countRejectMessage = pre ++ (transactionCountHint ++ post)) := by
  refine ⟨?_, ?_, ?_, ?_⟩
  · unfold isValid
    repeat' split
    all_goals first
      | (simp_all; tauto)
      | simp_all
  · intro c m
    unfold isValid
    split
    · intro h; cases h; rfl
    · split
      · intro h; cases h; rfl
      · split
        · intro h; cases h; rfl
        · intro h; cases h
  · intro h
    simp [isValid, h]
  · exact ⟨"Cannot run 'count' in a multi-document transaction. Please see ",
      " for a recommended alternative.", by decide⟩

/-- Witness for C8 at concrete inputs. -/
theorem isValid_characterization_witness :
    isValid "testdb" "find" false = Status.ok ∧
    isValid "testdb" "count" false =
      Status.error ErrorCode.OperationNotSupportedInTransaction countRejectMessage := by
  constructor
  · exact (isValid_characterization "testdb" "find" false).1.mpr (by decide)
  · exact (isValid_characterization "testdb" "count" false).2.2.1 rfl


/-- C5: when the active-transaction and state invariants hold,
`addTransactionOperation` fails with `TransactionTooLarge` if and only if
`operation_bytes` plus the operation size exceeds `MAX_BSON_INTERNAL_SIZE`,
and succeeds if and only if the sum is at most the bound. -/
theorem addTransactionOperation_tooLarge_iff
    (sess : SessionState) (p : TransactionParticipant) (opCtx : OpCtx)
    (op : ReplOperation) (n : Int)
    (hn : opCtx.txnNumber = some n)
    (hs : sess.activeTxnNumber = p.activeTxnNumber)
    (hr : n = p.activeTxnNumber)
    (hstate : p.txnState = .kInProgress)
    (hac : p.autoCommit = some false)
    (hinit : ¬ p.activeTxnNumber = kUninitializedTxnNumber)
    (hw : opCtx.wuow.isSome = true) :
    ((addTransactionOperation sess p opCtx op).outcome =
        Outcome.error ErrorCode.TransactionTooLarge ↔
      BSONObjMaxInternalSize <
        p.transactionOperationBytes + getReplOperationSize op) ∧
    ((addTransactionOperation sess p opCtx op).outcome = Outcome.ok ↔
      p.transactionOperationBytes + getReplOperationSize op ≤
        BSONObjMaxInternalSize) := by
  unfold addTransactionOperation
  rw [hn]
  unfold checkIsActiveTransaction
  simp [hs, hr, hstate, hac, hinit, hw]
  split <;> simp_all <;> omega

/-- Witness for C5 at the boundary: a sum of exactly the maximum succeeds,
a sum of maximum plus one fails. -/
theorem addTransactionOperation_tooLarge_iff_witness :
    ((addTransactionOperation baseSession
        { inProgressParticipant with
          transactionOperationBytes := BSONObjMaxInternalSize - 1 }
        { baseOpCtx with wuow := some 1 } { size := 1 }).outcome = Outcome.ok) ∧
    ((addTransactionOperation baseSession
        { inProgressParticipant with
          transactionOperationBytes := BSONObjMaxInternalSize }
        { baseOpCtx with wuow := some 1 } { size := 1 }).outcome =
      Outcome.error ErrorCode.TransactionTooLarge) := by
  constructor
  · exact (addTransactionOperation_tooLarge_iff baseSession
      { inProgressParticipant with
        transactionOperationBytes := BSONObjMaxInternalSize - 1 }
      { baseOpCtx with wuow := some 1 } { size := 1 } 10
      rfl rfl rfl rfl rfl (by decide) rfl).2.mpr (by decide)
  · exact (addTransactionOperation_tooLarge_iff baseSession
      { inProgressParticipant with
        transactionOperationBytes := BSONObjMaxInternalSize }
      { baseOpCtx with wuow := some 1 } { size := 1 } 10
      rfl rfl rfl rfl rfl (by decide) rfl).1.mpr (by decide)

/-- C9: the `TransactionTooLarge` failure is not atomic: the rejected
operation has already been appended and its size added before the bound is
checked, so the error leaves the operations vector holding the oversized
operation and `operation_bytes` above `MAX_BSON_INTERNAL_SIZE`. -/
theorem addTransactionOperation_failure_keeps_operation
    (sess : SessionState) (p : TransactionParticipant) (opCtx : OpCtx)
    (op : ReplOperation) (n : Int)
    (hn : opCtx.txnNumber = some n)
    (hs : sess.activeTxnNumber = p.activeTxnNumber)
    (hr : n = p.activeTxnNumber)
    (hstate : p.txnState = .kInProgress)
    (hac : p.autoCommit = some false)
    (hinit : ¬ p.activeTxnNumber = kUninitializedTxnNumber)
    (hw : opCtx.wuow.isSome = true)
    (hbig : BSONObjMaxInternalSize <
      p.transactionOperationBytes + getReplOperationSize op) :
    addTransactionOperation sess p opCtx op =
      { participant := { p with
          transactionOperations := p.transactionOperations ++ [op],
          transactionOperationBytes :=
            p.transactionOperationBytes + getReplOperationSize op },
        events := [],
        outcome := Outcome.error ErrorCode.TransactionTooLarge } ∧
    BSONObjMaxInternalSize <
      (addTransactionOperation sess p opCtx op).participant.transactionOperationBytes := by
  unfold addTransactionOperation
  rw [hn]
  unfold checkIsActiveTransaction
  have hc : ¬ (p.transactionOperationBytes + getReplOperationSize op ≤
      BSONObjMaxInternalSize) := by omega
  simp [hs, hr, hstate, hac, hinit, hw, hc] <;> omega

/-- Witness for C9 at a concrete oversized input. -/
theorem addTransactionOperation_failure_keeps_operation_witness :
    addTransactionOperation baseSession
      { inProgressParticipant with
        transactionOperationBytes := BSONObjMaxInternalSize }
      { baseOpCtx with wuow := some 1 } { size := 1 } =
      { participant := { inProgressParticipant with
          transactionOperations := [{ size := 1 }],
          transactionOperationBytes := BSONObjMaxInternalSize + 1 },
        events := [],
        outcome := Outcome.error ErrorCode.TransactionTooLarge } ∧
    BSONObjMaxInternalSize <
      (addTransactionOperation baseSession
        { inProgressParticipant with
          transactionOperationBytes := BSONObjMaxInternalSize }
        { baseOpCtx with wuow := some 1 } { size := 1 }).participant.transactionOperationBytes := by
  have h := addTransactionOperation_failure_keeps_operation baseSession
    { inProgressParticipant with
      transactionOperationBytes := BSONObjMaxInternalSize }
    { baseOpCtx with wuow := some 1 } { size := 1 } 10
    rfl rfl rfl rfl rfl (by decide) rfl (by decide)
  exact ⟨by rw [h.1]; rfl, h.2⟩


/-- Counterexample to C3 as stated: with matching transaction numbers and an
`Aborted` state, the three validation conditions fail, yet
`commitPreparedTransaction` raises `NoSuchTransaction` (from the
active-transaction check), not `InvalidOptions`. -/
theorem commitPrepared_claim_false_on_aborted :
    (commitPreparedTransactionValidate baseSession
        { baseParticipant with txnState := .kAborted } baseOpCtx 5).outcome =
      Outcome.error ErrorCode.NoSuchTransaction ∧
    ¬ (commitPreparedTransactionValidate baseSession
        { baseParticipant with txnState := .kAborted } baseOpCtx 5).outcome =
      Outcome.error ErrorCode.InvalidOptions ∧
    ¬ ({ baseParticipant with txnState := .kAborted } :
        TransactionParticipant).txnState = .kPrepared := by
  decide

/-- C3 (amended): assuming the request and session transaction numbers match
the active one, `commitPreparedTransaction` raises an error leaving the state
unchanged unless the state is `Prepared`, `commit_ts` is non-null, and
`commit_ts >= prepare_optime.ts` — the error being `NoSuchTransaction` when
the state is `Aborted` and `InvalidOptions` otherwise — and when all three
hold it transitions the state to `CommittingWithPrepare`. -/
theorem commitPrepared_validation (sess : SessionState)
    (p : TransactionParticipant) (opCtx : OpCtx)
    (commitTimestamp : Nat) (n : Int)
    (hn : opCtx.txnNumber = some n)
    (hs : sess.activeTxnNumber = p.activeTxnNumber)
    (hr : n = p.activeTxnNumber) :
    (p.txnState = .kAborted →
      commitPreparedTransactionValidate sess p opCtx commitTimestamp =
        { participant := p, events := [],
          outcome := Outcome.error ErrorCode.NoSuchTransaction }) ∧
    (¬ p.txnState = .kAborted →
      ¬ (p.txnState = .kPrepared ∧ ¬ commitTimestamp = 0 ∧
          p.prepareOpTime.ts ≤ commitTimestamp) →
      commitPreparedTransactionValidate sess p opCtx commitTimestamp =
        { participant := p, events := [],
          outcome := Outcome.error ErrorCode.InvalidOptions }) ∧
    (p.txnState = .kPrepared → ¬ commitTimestamp = 0 →
      p.prepareOpTime.ts ≤ commitTimestamp →
      commitPreparedTransactionValidate sess p opCtx commitTimestamp =
        { participant := { p with txnState := .kCommittingWithPrepare },
          events := [], outcome := Outcome.ok }) := by
  unfold commitPreparedTransactionValidate
  rw [hn]
  unfold checkIsActiveTransaction
  refine ⟨?_, ?_, ?_⟩
  · intro hab
    simp [hs, hr, hab]
  · intro hab hbad
    simp only [hs, hr]
    simp [hab]
    by_cases hp : p.txnState = TransactionState.kPrepared
    · simp [hp]
      by_cases h0 : commitTimestamp = 0
      · simp [h0]
      · simp [h0]
        have : commitTimestamp < p.prepareOpTime.ts := by
          rcases Nat.lt_or_ge commitTimestamp p.prepareOpTime.ts with h | h
          · exact h
          · exact absurd ⟨hp, h0, h⟩ hbad
        simp [this]
    · simp [hp]
  · intro hp h0 hle
    have hab : ¬ p.txnState = TransactionState.kAborted := by simp [hp]
    simp [hs, hr, hab, hp, h0, Nat.not_lt.mpr hle,
      transitionToValidated, TransactionState.transitionTo,
      TransactionState.isLegalTransition]

/-- Witness for C3 on a prepared participant: a valid timestamp commits, a
timestamp below the prepare timestamp is rejected with `InvalidOptions`. -/
theorem commitPrepared_validation_witness :
    commitPreparedTransactionValidate baseSession preparedParticipant
        baseOpCtx 5 =
      { participant :=
          { preparedParticipant with txnState := .kCommittingWithPrepare },
        events := [], outcome := Outcome.ok } ∧
    commitPreparedTransactionValidate baseSession preparedParticipant
        baseOpCtx 2 =
      { participant := preparedParticipant, events := [],
        outcome := Outcome.error ErrorCode.InvalidOptions } := by
  constructor
  · exact (commitPrepared_validation baseSession preparedParticipant
      baseOpCtx 5 10 rfl rfl rfl).2.2 rfl (by decide) (by decide)
  · exact (commitPrepared_validation baseSession preparedParticipant
      baseOpCtx 2 10 rfl rfl rfl).2.1 (by decide) (by decide)

/-- C4: continuing a transaction (autocommit false, no startTransaction, the
active transaction number) whose state is `InProgress` with no stash first
aborts the transaction on the session — transitioning to `Aborted` and
clearing the per-transaction fields — and then fails with
`NoSuchTransaction`. -/
theorem continue_after_failed_first_statement (sess : SessionState)
    (p : TransactionParticipant) (role : Bool) (now lt : Nat)
    (hrefresh : sess.lastRefreshState = none)
    (hstate : p.txnState = .kInProgress)
    (hstash : p.txnResourceStash = none) :
    beginOrContinue sess p p.activeTxnNumber (some false) none role now lt =
      { participant := { p with
          txnResourceStash := none,
          transactionOperations := [],
          transactionOperationBytes := 0,
          txnState := .kAborted,
          prepareOpTime := OpTime.null,
          oldestOplogEntryTS := none,
          speculativeTransactionReadOpTime := OpTime.null },
        events := [Event.onAbortActive, Event.unlockTxnNumber],
        outcome := Outcome.error ErrorCode.NoSuchTransaction } := by
  unfold beginOrContinue
  rw [hrefresh]
  unfold beginOrContinueDispatch continueMultiDocumentTransaction abortTransactionOnSession
  simp [hstate, hstash, transitionToValidated, TransactionState.transitionTo,
    TransactionState.isLegalTransition]

/-- Witness for C4 at a concrete in-progress participant with no stash. -/
theorem continue_after_failed_first_statement_witness :
    beginOrContinue baseSession inProgressParticipant
        inProgressParticipant.activeTxnNumber (some false) none true 0 60 =
      { participant := { inProgressParticipant with
          txnResourceStash := none,
          transactionOperations := [],
          transactionOperationBytes := 0,
          txnState := .kAborted,
          prepareOpTime := OpTime.null,
          oldestOplogEntryTS := none,
          speculativeTransactionReadOpTime := OpTime.null },
        events := [Event.onAbortActive, Event.unlockTxnNumber],
        outcome := Outcome.error ErrorCode.NoSuchTransaction } :=
  continue_after_failed_first_statement baseSession inProgressParticipant
    true 0 60 rfl rfl rfl


/-- C6: the non-user-directed abort paths never abort a `Prepared`
transaction: `abortArbitraryTransaction` changes the participant only in
`InProgress`, and `abortArbitraryTransactionIfExpired` aborts only when
`InProgress` with the expiry deadline strictly before now, first killing any
running operation with `ExceededTimeLimit`; in every other state, `Prepared`
included, both calls leave the participant unchanged. -/
theorem nonUserDirected_abort_spares_prepared (sess : SessionState)
    (p : TransactionParticipant) (now : Nat) :
    (¬ p.txnState = .kInProgress →
      abortArbitraryTransaction p =
        { participant := p, events := [], outcome := Outcome.ok } ∧
      abortArbitraryTransactionIfExpired sess p now =
        { participant := p, events := [], outcome := Outcome.ok }) ∧
    (¬ expireDatePassed p.transactionExpireDate now = true →
      abortArbitraryTransactionIfExpired sess p now =
        { participant := p, events := [], outcome := Outcome.ok }) ∧
    (p.txnState = .kInProgress →
      (abortArbitraryTransaction p).participant.txnState = .kAborted ∧
      (abortArbitraryTransaction p).outcome = Outcome.ok) ∧
    (p.txnState = .kInProgress →
      expireDatePassed p.transactionExpireDate now = true →
      (abortArbitraryTransactionIfExpired sess p now).participant.txnState =
          .kAborted ∧
      (abortArbitraryTransactionIfExpired sess p now).outcome = Outcome.ok ∧
      (sess.hasCurrentOperation = true →
        (abortArbitraryTransactionIfExpired sess p now).events.head? =
          some (Event.killOperation ErrorCode.ExceededTimeLimit))) := by
  refine ⟨?_, ?_, ?_, ?_⟩
  · intro h
    constructor
    · simp [abortArbitraryTransaction, h]
    · simp [abortArbitraryTransactionIfExpired, h]
  · intro h
    unfold abortArbitraryTransactionIfExpired
    split
    · rfl
    · simp [h]
  · intro h
    cases hst : p.txnResourceStash <;>
      simp [abortArbitraryTransaction, abortTransactionOnSession, h, hst,
        transitionToValidated, TransactionState.transitionTo,
        TransactionState.isLegalTransition]
  · intro h hexp
    cases hop : sess.hasCurrentOperation <;>
      cases hst : p.txnResourceStash <;>
        simp [abortArbitraryTransactionIfExpired, abortTransactionOnSession,
          h, hexp, hop, hst, transitionToValidated,
          TransactionState.transitionTo, TransactionState.isLegalTransition]

/-- Witness for C6: a prepared participant is untouched by both paths and an
in-progress one is aborted. -/
theorem nonUserDirected_abort_spares_prepared_witness :
    abortArbitraryTransaction preparedParticipant =
      { participant := preparedParticipant, events := [],
        outcome := Outcome.ok } ∧
    abortArbitraryTransactionIfExpired baseSession preparedParticipant 100 =
      { participant := preparedParticipant, events := [],
        outcome := Outcome.ok } ∧
    (abortArbitraryTransaction inProgressParticipant).participant.txnState =
      .kAborted :=
  ⟨((nonUserDirected_abort_spares_prepared baseSession preparedParticipant
      100).1 (by decide)).1,
   ((nonUserDirected_abort_spares_prepared baseSession preparedParticipant
      100).1 (by decide)).2,
   ((nonUserDirected_abort_spares_prepared baseSession inProgressParticipant
      100).2.2.1 rfl).1⟩

/-- C10: once `shutdown` has set `in_shutdown` (and dropped the stash),
every call to `stashTransactionResources` — and `_stashActiveTransaction`
itself — returns without constructing a stash: the stash stays absent, no
metrics events are recorded, and the op-context keeps its resources. -/
theorem stash_noop_after_shutdown (sess : SessionState)
    (p : TransactionParticipant) (opCtx : OpCtx)
    (hshut : p.inShutdown = true)
    (hstash : p.txnResourceStash = none) :
    stashActiveTransaction p opCtx =
      { participant := p, opCtx := opCtx, events := [],
        outcome := Outcome.ok } ∧
    (stashTransactionResources sess p opCtx).participant = p ∧
    (stashTransactionResources sess p opCtx).opCtx = opCtx ∧
    (stashTransactionResources sess p opCtx).events = [] ∧
    (stashTransactionResources sess p opCtx).participant.txnResourceStash =
      none := by
  have h1 : stashActiveTransaction p opCtx =
      { participant := p, opCtx := opCtx, events := [],
        outcome := Outcome.ok } := by
    unfold stashActiveTransaction
    simp [hshut]
  refine ⟨h1, ?_⟩
  unfold stashTransactionResources
  split
  · simp [hstash]
  · split
    · simp [hstash]
    · split
      · simp [hstash]
      · split
        · simp [hstash]
        · simp [h1, hstash]

/-- Witness for C10 on a shut-down participant. -/
theorem stash_noop_after_shutdown_witness :
    (stashTransactionResources baseSession
        (shutdown inProgressParticipant)
        { baseOpCtx with wuow := some 1 }).participant =
      shutdown inProgressParticipant ∧
    (stashTransactionResources baseSession
        (shutdown inProgressParticipant)
        { baseOpCtx with wuow := some 1 }).opCtx =
      { baseOpCtx with wuow := some 1 } ∧
    (stashTransactionResources baseSession
        (shutdown inProgressParticipant)
        { baseOpCtx with wuow := some 1 }).events = [] :=
  ⟨(stash_noop_after_shutdown baseSession (shutdown inProgressParticipant)
      { baseOpCtx with wuow := some 1 } rfl rfl).2.1,
   (stash_noop_after_shutdown baseSession (shutdown inProgressParticipant)
      { baseOpCtx with wuow := some 1 } rfl rfl).2.2.1,
   (stash_noop_after_shutdown baseSession (shutdown inProgressParticipant)
      { baseOpCtx with wuow := some 1 } rfl rfl).2.2.2.1⟩


/-- C7: for a participant in a multi-document transaction with a stash
present, matching transaction numbers, not shutting down, with the command
outside a direct client, legal for the state and carrying no read concern,
`unstashTransactionResources` followed by `stashTransactionResources`
succeeds and returns the participant to exactly its original value: state,
`prepare_optime` and `operations` unchanged and the stash present again. -/
theorem unstash_stash_roundtrip (sess : SessionState)
    (p : TransactionParticipant) (opCtx : OpCtx) (cmdName : String)
    (tr : TxnResources) (n : Int)
    (hdc : opCtx.isInDirectClient = false)
    (hn : opCtx.txnNumber = some n)
    (hr : n = p.activeTxnNumber)
    (hs : sess.activeTxnNumber = p.activeTxnNumber)
    (hstash : p.txnResourceStash = some tr)
    (hrel : tr.released = false)
    (hmulti : inMultiDocumentTransaction p.txnState = true)
    (hcmd : checkIsCommandValidWithTxnState p.txnState cmdName = none)
    (hrc : opCtx.readConcern.isEmpty = true)
    (hw : opCtx.wuow = none)
    (hshut : p.inShutdown = false) :
    (unstashTransactionResources sess p opCtx cmdName).outcome = Outcome.ok ∧
    (stashTransactionResources sess
        (unstashTransactionResources sess p opCtx cmdName).participant
        (unstashTransactionResources sess p opCtx cmdName).opCtx).outcome =
      Outcome.ok ∧
    (stashTransactionResources sess
        (unstashTransactionResources sess p opCtx cmdName).participant
        (unstashTransactionResources sess p opCtx cmdName).opCtx).participant =
      p := by
  subst hr
  obtain ⟨ruS, lk, ru, rc, rel⟩ := tr
  simp only at hrel
  subst hrel
  have hne : ¬ p.txnState = TransactionState.kNone := by
    intro hk
    rw [hk] at hmulti
    simp [inMultiDocumentTransaction] at hmulti
  have h1 : unstashTransactionResources sess p opCtx cmdName =
      { participant := { p with txnResourceStash := none },
        opCtx := { opCtx with
          lockState := lk, recoveryUnit := ru, wuow := some ruS,
          readConcern := rc },
        events := [Event.onUnstash], outcome := Outcome.ok } := by
    unfold unstashTransactionResources
    rw [hn]
    unfold checkIsActiveTransaction
    simp [hdc, hs, hne, hcmd, hstash, hrc, TxnResources.release, hw, hn]
  rw [h1]
  refine ⟨rfl, ?_, ?_⟩
  · unfold stashTransactionResources
    unfold checkIsActiveTransaction stashActiveTransaction
    simp [hdc, hs, hshut, hn, hmulti, TxnResources.acquire]
  · unfold stashTransactionResources
    unfold checkIsActiveTransaction stashActiveTransaction
    simp [hdc, hs, hshut, hn, hmulti, TxnResources.acquire]
    rw [← hstash]
    rw [← hshut]


theorem abortTransactionOnSession_activeTxnNumber
    (p : TransactionParticipant) :
    (abortTransactionOnSession p).participant.activeTxnNumber =
      p.activeTxnNumber := by
  unfold abortTransactionOnSession
  cases hst : p.txnResourceStash <;>
    rcases h : transitionToValidated p.txnState TransactionState.kAborted
      with _ | s <;>
      simp [h, hst]

theorem setNewTxnNumber_activeTxnNumber (p : TransactionParticipant)
    (n : Int) :
    (setNewTxnNumber p n).participant.activeTxnNumber = p.activeTxnNumber ∨
    (setNewTxnNumber p n).participant.activeTxnNumber = n := by
  unfold setNewTxnNumber
  split
  · exact Or.inl rfl
  · split
    · rcases ho : (abortTransactionOnSession p).outcome with _ | c
      · simp only [ho]
        rcases ht : transitionToValidated
            (abortTransactionOnSession p).participant.txnState
            TransactionState.kNone with _ | s <;>
          simp [ht]
      · simp only [ho]
        exact Or.inl (abortTransactionOnSession_activeTxnNumber p)
      · simp only [ho]
        exact Or.inl (abortTransactionOnSession_activeTxnNumber p)
    · rcases ht : transitionToValidated p.txnState TransactionState.kNone
        with _ | s <;> simp [ht]

theorem beginMultiDocumentTransaction_activeTxnNumber
    (p : TransactionParticipant) (n : Int) (now lt : Nat) :
    (beginMultiDocumentTransaction p n now lt).participant.activeTxnNumber =
      (setNewTxnNumber p n).participant.activeTxnNumber := by
  unfold beginMultiDocumentTransaction
  rcases ho : (setNewTxnNumber p n).outcome with _ | c
  · simp only [ho]
    rcases ht : transitionToValidated
        (setNewTxnNumber p n).participant.txnState
        TransactionState.kInProgress with _ | s
    · simp [ht]
    · simp only [ht]
      split <;> rfl
  · simp [ho]
  · simp [ho]

theorem updateState_activeTxnNumber (p : TransactionParticipant)
    (rs : RefreshState) :
    (updateState p rs).activeTxnNumber = p.activeTxnNumber ∨
    (updateState p rs).activeTxnNumber = rs.txnNumber := by
  unfold updateState
  split
  · exact Or.inl rfl
  · right
    split <;> rfl

theorem continueMultiDocumentTransaction_activeTxnNumber
    (p : TransactionParticipant) (n : Int) :
    (continueMultiDocumentTransaction p n).participant.activeTxnNumber =
      p.activeTxnNumber := by
  unfold continueMultiDocumentTransaction
  split
  · rfl
  · split
    · rcases ho : (abortTransactionOnSession p).outcome with _ | c <;>
        simp [ho, abortTransactionOnSession_activeTxnNumber]
    · rfl

theorem beginOrContinueRetryableWrite_monotone (p : TransactionParticipant)
    (n : Int) :
    p.activeTxnNumber ≤
      (beginOrContinueRetryableWrite p n).participant.activeTxnNumber := by
  unfold beginOrContinueRetryableWrite
  split
  · rename_i hgt
    rcases setNewTxnNumber_activeTxnNumber p n with h | h <;> rw [h] <;> omega
  · split
    · exact le_refl _
    · split <;> exact le_refl _


theorem beginOrContinueDispatch_activeTxnNumber
    (p : TransactionParticipant) (n : Int) (ac st : Option Bool)
    (role : Bool) (now lt : Nat) :
    (beginOrContinueDispatch p n ac st role now lt).participant.activeTxnNumber =
      p.activeTxnNumber ∨
    (beginOrContinueDispatch p n ac st role now lt).participant.activeTxnNumber =
      n := by
  unfold beginOrContinueDispatch
  split
  · split
    · exact Or.inl rfl
    · unfold beginOrContinueRetryableWrite
      split
      · exact setNewTxnNumber_activeTxnNumber p n
      · split
        · exact Or.inl rfl
        · split <;> exact Or.inl rfl
  · exact Or.inl rfl
  · split
    · exact Or.inl (continueMultiDocumentTransaction_activeTxnNumber p n)
    · exact Or.inl rfl
    · split
      · split
        · exact Or.inl rfl
        · split
          · exact Or.inl rfl
          · rw [beginMultiDocumentTransaction_activeTxnNumber]
            exact setNewTxnNumber_activeTxnNumber p n
      · rw [beginMultiDocumentTransaction_activeTxnNumber]
        exact setNewTxnNumber_activeTxnNumber p n


theorem stashTransactionResources_activeTxnNumber (sess : SessionState)
    (p : TransactionParticipant) (opCtx : OpCtx) :
    (stashTransactionResources sess p opCtx).participant.activeTxnNumber =
      p.activeTxnNumber := by
  unfold stashTransactionResources stashActiveTransaction
  repeat' split
  all_goals rfl

theorem unstashTransactionResources_activeTxnNumber (sess : SessionState)
    (p : TransactionParticipant) (opCtx : OpCtx) (cmdName : String) :
    (unstashTransactionResources sess p opCtx cmdName).participant.activeTxnNumber =
      p.activeTxnNumber := by
  unfold unstashTransactionResources
  repeat' split
  all_goals rfl

theorem addTransactionOperation_activeTxnNumber (sess : SessionState)
    (p : TransactionParticipant) (opCtx : OpCtx) (op : ReplOperation) :
    (addTransactionOperation sess p opCtx op).participant.activeTxnNumber =
      p.activeTxnNumber := by
  unfold addTransactionOperation
  repeat' split
  all_goals try rfl
  all_goals simp only []
  all_goals split <;> rfl

theorem commitPreparedTransactionValidate_activeTxnNumber
    (sess : SessionState) (p : TransactionParticipant) (opCtx : OpCtx)
    (ts : Nat) :
    (commitPreparedTransactionValidate sess p opCtx ts).participant.activeTxnNumber =
      p.activeTxnNumber := by
  unfold commitPreparedTransactionValidate
  repeat' split
  all_goals rfl

theorem abortArbitraryTransaction_activeTxnNumber
    (p : TransactionParticipant) :
    (abortArbitraryTransaction p).participant.activeTxnNumber =
      p.activeTxnNumber := by
  unfold abortArbitraryTransaction
  split
  · rfl
  · exact abortTransactionOnSession_activeTxnNumber p

theorem abortArbitraryTransactionIfExpired_activeTxnNumber
    (sess : SessionState) (p : TransactionParticipant) (now : Nat) :
    (abortArbitraryTransactionIfExpired sess p now).participant.activeTxnNumber =
      p.activeTxnNumber := by
  unfold abortArbitraryTransactionIfExpired
  split
  · rfl
  · split
    · rfl
    · exact abortTransactionOnSession_activeTxnNumber p

/-- Counterexample to C2 as stated: `beginTransactionUnconditionally` at a
transaction number strictly below the active one succeeds and replaces
`active_txn_number` with the smaller value. -/
theorem beginTransactionUnconditionally_not_monotone :
    (beginTransactionUnconditionally baseParticipant 5 0 60).outcome =
      Outcome.ok ∧
    baseParticipant.activeTxnNumber = 10 ∧
    (beginTransactionUnconditionally baseParticipant 5 0 60).participant.activeTxnNumber =
      5 := by
  decide

/-- C2 (amended): every participant operation either leaves
`active_txn_number` unchanged or installs exactly a supplied transaction
number: the resource, abort, commit-validation and shutdown paths preserve
it; the retryable-write path (`beginOrContinue` without autocommit, no
pending refresh) and `checkForNewTxnNumber` never decrease it; but
`beginOrContinue` at its transaction-start path, the session-refresh path,
and `beginTransactionUnconditionally` set it to the supplied number even
when that is strictly smaller. -/
theorem activeTxnNumber_changes_only_to_supplied (sess : SessionState)
    (p : TransactionParticipant) (opCtx : OpCtx) (txnNumber : Int)
    (ac st : Option Bool) (role : Bool) (now lt : Nat) (cmdName : String)
    (op : ReplOperation) (ts : Nat) :
    (stashTransactionResources sess p opCtx).participant.activeTxnNumber =
      p.activeTxnNumber ∧
    (unstashTransactionResources sess p opCtx cmdName).participant.activeTxnNumber =
      p.activeTxnNumber ∧
    (addTransactionOperation sess p opCtx op).participant.activeTxnNumber =
      p.activeTxnNumber ∧
    (commitPreparedTransactionValidate sess p opCtx ts).participant.activeTxnNumber =
      p.activeTxnNumber ∧
    (abortArbitraryTransaction p).participant.activeTxnNumber =
      p.activeTxnNumber ∧
    (abortArbitraryTransactionIfExpired sess p now).participant.activeTxnNumber =
      p.activeTxnNumber ∧
    (shutdown p).activeTxnNumber = p.activeTxnNumber ∧
    p.activeTxnNumber ≤
      (checkForNewTxnNumber sess p).participant.activeTxnNumber ∧
    (sess.lastRefreshState = none →
      p.activeTxnNumber ≤
        (beginOrContinue sess p txnNumber none none role now
          lt).participant.activeTxnNumber) ∧
    ((beginOrContinue sess p txnNumber ac st role now
        lt).participant.activeTxnNumber = p.activeTxnNumber ∨
      (beginOrContinue sess p txnNumber ac st role now
        lt).participant.activeTxnNumber = txnNumber ∨
      ∃ rs, sess.lastRefreshState = some rs ∧
        (beginOrContinue sess p txnNumber ac st role now
          lt).participant.activeTxnNumber = rs.txnNumber) ∧
    ((beginTransactionUnconditionally p txnNumber now
        lt).participant.activeTxnNumber = p.activeTxnNumber ∨
      (beginTransactionUnconditionally p txnNumber now
        lt).participant.activeTxnNumber = txnNumber) := by
  refine ⟨stashTransactionResources_activeTxnNumber sess p opCtx,
    unstashTransactionResources_activeTxnNumber sess p opCtx cmdName,
    addTransactionOperation_activeTxnNumber sess p opCtx op,
    commitPreparedTransactionValidate_activeTxnNumber sess p opCtx ts,
    abortArbitraryTransaction_activeTxnNumber p,
    abortArbitraryTransactionIfExpired_activeTxnNumber sess p now,
    rfl, ?_, ?_, ?_, ?_⟩
  · unfold checkForNewTxnNumber
    split
    · rename_i hgt
      rcases setNewTxnNumber_activeTxnNumber p sess.activeTxnNumber
        with h | h <;> rw [h] <;> omega
    · exact le_refl _
  · intro hr
    unfold beginOrContinue
    rw [hr]
    exact beginOrContinueRetryableWrite_monotone p txnNumber
  · unfold beginOrContinue
    rcases hls : sess.lastRefreshState with _ | rs
    · rcases beginOrContinueDispatch_activeTxnNumber p txnNumber ac st role
        now lt with h | h
      · exact Or.inl h
      · exact Or.inr (Or.inl h)
    · rcases beginOrContinueDispatch_activeTxnNumber (updateState p rs)
        txnNumber ac st role now lt with h | h
      · rcases updateState_activeTxnNumber p rs with h2 | h2
        · exact Or.inl (h.trans h2)
        · exact Or.inr (Or.inr ⟨rs, rfl, h.trans h2⟩)
      · exact Or.inr (Or.inl h)
  · unfold beginTransactionUnconditionally
    rw [beginMultiDocumentTransaction_activeTxnNumber]
    exact setNewTxnNumber_activeTxnNumber p txnNumber

/-- Witness for C2 (amended) at concrete inputs. -/
theorem activeTxnNumber_changes_only_to_supplied_witness :
    (stashTransactionResources baseSession inProgressParticipant
        baseOpCtx).participant.activeTxnNumber =
      inProgressParticipant.activeTxnNumber ∧
    inProgressParticipant.activeTxnNumber ≤
      (beginOrContinue baseSession inProgressParticipant 12 none none true 0
        60).participant.activeTxnNumber := by
  have h := activeTxnNumber_changes_only_to_supplied baseSession
    inProgressParticipant baseOpCtx 12 none none true 0 60 "find"
    { size := 1 } 0
  exact ⟨h.1, h.2.2.2.2.2.2.2.2.1 rfl⟩


/-- Witness for C7 on a concrete stashed in-progress participant. -/
theorem unstash_stash_roundtrip_witness :
    (unstashTransactionResources baseSession stashedParticipant baseOpCtx
        "find").outcome = Outcome.ok ∧
    (stashTransactionResources baseSession
        (unstashTransactionResources baseSession stashedParticipant baseOpCtx
          "find").participant
        (unstashTransactionResources baseSession stashedParticipant baseOpCtx
          "find").opCtx).participant = stashedParticipant := by
  have h := unstash_stash_roundtrip baseSession stashedParticipant baseOpCtx
    "find" baseResources 10 rfl rfl rfl rfl rfl rfl (by decide) (by decide)
    (by decide) rfl rfl
  exact ⟨h.1, h.2.2⟩

end MongoTxn
